import Mathlib

/-!
Verification of the capacitor-biometric-authentication core against its
specification.  The development shallowly embeds the relevant parts of the
implementation: the base64/base64url codec (`src/utils/encoding.ts` and the
native `base64UrlEncode`), the iOS plugin's signing/lockout/sign-count logic
(`BiometricAuthPlugin.swift`), and the session logic of
`src/core/BiometricAuthCore.ts`.  Machine integers are modelled as `Nat`/`Int`;
bytes are `Nat` values below 256; platform primitives (keychain, biometric
prompt, SHA-256) are explicit oracle parameters.
-/

namespace BiometricAuth

/-! ## Base64 / base64url codec

Model of the platform `btoa`/`atob` primitives (RFC 4648 base64 with padding,
forgiving decoding for `=`-padded groups) and of the url-safe wrappers built on
them in `src/utils/encoding.ts` and in the native plugins. -/

/-- Standard base64 alphabet, as a list of characters. -/
def base64Alphabet : List Char :=
  "ABCDEFGHIJKLMNOPQRSTUVWXYZabcdefghijklmnopqrstuvwxyz0123456789+/".toList

/-- Character for a 6-bit value (table lookup used by the encoder). -/
def tbl (v : Nat) : Char :=
  base64Alphabet.getD v 'A'

/-- Inverse table lookup: the 6-bit value of a base64 character, if any. -/
def decChar (c : Char) : Option Nat :=
  base64Alphabet.findIdx? (fun a => a == c)

/-- Model of the platform base64 encoder (`btoa` /
`Data.base64EncodedString`): groups of three bytes become four characters,
with `=` padding for a trailing group of one or two bytes. -/
def encodeB64 : List Nat → List Char
  | a :: b :: d :: rest =>
      tbl (a / 4) :: tbl (a % 4 * 16 + b / 16) :: tbl (b % 16 * 4 + d / 64) ::
        tbl (d % 64) :: encodeB64 rest
  | [a, b] => [tbl (a / 4), tbl (a % 4 * 16 + b / 16), tbl (b % 16 * 4), '=']
  | [a] => [tbl (a / 4), tbl (a % 4 * 16), '=', '=']
  | [] => []

/-- Padding-free part of the base64 encoding of a byte list. -/
def encodeB64Core : List Nat → List Char
  | a :: b :: d :: rest =>
      tbl (a / 4) :: tbl (a % 4 * 16 + b / 16) :: tbl (b % 16 * 4 + d / 64) ::
        tbl (d % 64) :: encodeB64Core rest
  | [a, b] => [tbl (a / 4), tbl (a % 4 * 16 + b / 16), tbl (b % 16 * 4)]
  | [a] => [tbl (a / 4), tbl (a % 4 * 16)]
  | [] => []

/-- Model of the platform base64 decoder (`atob`) on inputs whose length is a
multiple of four: each group of four characters yields three bytes, a final
group may carry one or two `=` padding characters; any other shape fails
(selecting `none` where the platform primitive throws). -/
def atobModel : List Char → Option (List Nat)
  | [] => some []
  | c1 :: c2 :: c3 :: c4 :: rest =>
      match decChar c1, decChar c2 with
      | some v1, some v2 =>
          if c3 = '=' then
            if c4 = '=' ∧ rest = [] then some [v1 * 4 + v2 / 16] else none
          else
            match decChar c3 with
            | some v3 =>
                if c4 = '=' then
                  if rest = [] then
                    some [v1 * 4 + v2 / 16, v2 % 16 * 16 + v3 / 4]
                  else none
                else
                  match decChar c4 with
                  | some v4 =>
                      match atobModel rest with
                      | some tail =>
                          some ((v1 * 4 + v2 / 16) :: (v2 % 16 * 16 + v3 / 4) ::
                            (v3 % 4 * 64 + v4) :: tail)
                      | none => none
                  | none => none
            | none => none
      | _, _ => none
  | _ => none

/-- Character-level substitution: `rep a b` maps `a` to `b` and fixes
everything else (one step of a global `replace`). -/
def rep (a b c : Char) : Char :=
  if c = a then b else c

/-- Global character replacement over a string, modelling
`String.replace(/x/g, y)`. -/
def replaceChar (a b : Char) (s : List Char) : List Char :=
  s.map (rep a b)

/-- Global removal of a character, modelling `String.replace(/x/g, '')`. -/
def removeChar (x : Char) (s : List Char) : List Char :=
  s.filter (fun c => c != x)

/-- Embedding of `arrayBufferToBase64URL` (`src/utils/encoding.ts`): standard
base64, then `+`→`-`, then `/`→`_`, then strip all `=`. -/
def arrayBufferToBase64URL (buffer : List Nat) : List Char :=
  removeChar '=' (replaceChar '/' '_' (replaceChar '+' '-' (encodeB64 buffer)))

/-- Embedding of the native plugins' `base64UrlEncode` (same pipeline as
`arrayBufferToBase64URL`: base64, `+`→`-`, `/`→`_`, strip `=`). -/
def base64UrlEncode (data : List Nat) : List Char :=
  removeChar '=' (replaceChar '/' '_' (replaceChar '+' '-' (encodeB64 data)))

/-- Embedding of `base64ToArrayBuffer` (`src/utils/encoding.ts`): a direct
call to the platform `atob`. -/
def base64ToArrayBuffer (base64 : List Char) : Option (List Nat) :=
  atobModel base64

/-- Embedding of `base64URLToArrayBuffer` (`src/utils/encoding.ts`): translate
`-`→`+` and `_`→`/`, right-pad with `=` to a multiple of four, then standard
base64 decoding. -/
def base64URLToArrayBuffer (base64url : List Char) : Option (List Nat) :=
  let base64 := replaceChar '_' '/' (replaceChar '-' '+' base64url)
  let padded := base64 ++ List.replicate ((4 - base64.length % 4) % 4) '='
  atobModel padded

/-! ## UTF-8 encoding (model of `TextEncoder` / `String.data(using: .utf8)`) -/

/-- UTF-8 byte sequence of a single code point. -/
def utf8Char (c : Nat) : List Nat :=
  if c < 128 then [c]
  else if c < 2048 then [192 + c / 64, 128 + c % 64]
  else if c < 65536 then [224 + c / 4096, 128 + c / 64 % 64, 128 + c % 64]
  else [240 + c / 262144, 128 + c / 4096 % 64, 128 + c / 64 % 64, 128 + c % 64]

/-- UTF-8 encoding of a character list. -/
def utf8EncodeChars : List Char → List Nat
  | [] => []
  | c :: cs => utf8Char c.toNat ++ utf8EncodeChars cs

/-- UTF-8 encoding of a string. -/
def utf8EncodeString (s : String) : List Nat :=
  utf8EncodeChars s.toList

/-! ## iOS plugin: sign counters (`getAndIncrementSignCount`) -/

/-- UserDefaults key used for a credential's sign counter
(`SIGN_COUNT_KEY + credentialId`). -/
def signCountKey (credentialId : String) : String :=
  "sign_count_" ++ credentialId

/-- Embedding of `getAndIncrementSignCount`: read the stored counter (missing
keys read as 0, as `UserDefaults.integer(forKey:)` does), store the successor,
and return the pre-increment value.  The store is modelled as a total map from
keys to naturals. -/
def getAndIncrementSignCount (store : String → Nat) (credentialId : String) :
    Nat × (String → Nat) :=
  let key := signCountKey credentialId
  let signCount := store key
  (signCount, fun k => if k = key then signCount + 1 else store k)

/-- Observed values and final store after `n` successive uses of the counter
for one credential. -/
def iterateUses (store : String → Nat) (credentialId : String) :
    Nat → List Nat × (String → Nat)
  | 0 => ([], store)
  | n + 1 =>
      let r := getAndIncrementSignCount store credentialId
      let rest := iterateUses r.2 credentialId n
      (r.1 :: rest.1, rest.2)

/-! ## iOS plugin: lockout accounting -/

/-- Lockout state of the plugin: the failed-attempt counter and the optional
lockout end time (`lockoutEndTime`). -/
structure LockoutState where
  failedAttempts : Nat
  lockoutEndTime : Option Nat
deriving DecidableEq, Repr

/-- Embedding of `isLockedOut`: locked while `now` is before the recorded end
time; otherwise the end time is cleared and the state is unlocked. -/
def isLockedOut (st : LockoutState) (now : Nat) : Bool × LockoutState :=
  match st.lockoutEndTime with
  | some endTime =>
      if now < endTime then (true, st)
      else (false, { st with lockoutEndTime := none })
  | none => (false, { st with lockoutEndTime := none })

/-- Embedding of `handleFailedAttempt`: increment the counter; on reaching
`maxAttempts`, set the lockout end time to `now + lockoutDuration` and reset
the counter to 0. -/
def handleFailedAttempt (maxAttempts lockoutDuration : Nat)
    (st : LockoutState) (now : Nat) : LockoutState :=
  let fa := st.failedAttempts + 1
  if maxAttempts ≤ fa then
    { failedAttempts := 0, lockoutEndTime := some (now + lockoutDuration) }
  else
    { st with failedAttempts := fa }

/-- Embedding of `resetFailedAttempts`: zero the counter and clear any lockout
end time. -/
def resetFailedAttempts : LockoutState :=
  { failedAttempts := 0, lockoutEndTime := none }

/-! ## iOS plugin: authenticate / register

The plugin's mutable state relevant to the verified claims is the lockout
state and the sign-counter store.  The platform collaborators (biometric
prompt, keychain, wall clock, UUID generation) are an explicit oracle. -/

/-- Mutable plugin state: lockout accounting plus the per-credential sign
counters persisted in UserDefaults. -/
structure PluginState where
  lockout : LockoutState
  signCounts : String → Nat

/-- Outcome of `LAContext.evaluatePolicy`: success, or failure with an
`LAError` raw code. -/
inductive PromptOutcome where
  | succeeded
  | failed (laError : Int)
deriving DecidableEq, Repr

/-- Platform oracle for one call: wall clock (ms since epoch), prompt outcome,
the UUID-derived fresh credential identifier, keychain lookups
(`getPrivateKey`/`generateKeyPair`), the `SecKeyCreateSignature` output and
the exported public key, when those calls succeed. -/
structure PlatformEnv where
  now : Nat
  promptOutcome : PromptOutcome
  freshCredentialId : String
  hasExistingKey : Bool
  keyGenSucceeds : Bool
  signOutput : Option (List Nat)
  publicKeyData : Option (List Nat)

/-- LAError raw value for `userCancel`. -/
def laUserCancel : Int := -2

/-- LAError raw value for `userFallback`. -/
def laUserFallback : Int := -3

/-- LAError raw value for `systemCancel`. -/
def laSystemCancel : Int := -4

/-- LAError raw value for `authenticationFailed`. -/
def laAuthenticationFailed : Int := -1

/-- LAError raw value for `biometryNotAvailable`. -/
def laBiometryNotAvailable : Int := -6

/-- LAError raw value for `biometryNotEnrolled`. -/
def laBiometryNotEnrolled : Int := -7

/-- LAError raw value for `biometryLockout`. -/
def laBiometryLockout : Int := -8

/-- Error-code mapping of the failure branches of `authenticate`/`register`:
the `switch error.code` over `LAError` raw values. -/
def mapAuthErrorCode (code : Int) : String :=
  if code = laUserCancel then "userCancelled"
  else if code = laUserFallback then "userCancelled"
  else if code = laSystemCancel then "systemCancelled"
  else if code = laAuthenticationFailed then "authenticationFailed"
  else if code = laBiometryLockout then "lockedOut"
  else if code = laBiometryNotAvailable then "notAvailable"
  else if code = laBiometryNotEnrolled then "notEnrolled"
  else "unknown"

/-- Placeholder emitted by `generateRealSignature` when the platform signing
primitive is unavailable: `base64UrlEncode("fallback_sig_<timestamp>")`. -/
def fallbackSignature (nowMs : Nat) : List Char :=
  base64UrlEncode (utf8EncodeString ("fallback_sig_" ++ toString nowMs))

/-- Embedding of `generateRealSignature`: obtain an existing key or generate a
new one — if neither is possible, return the placeholder; then sign — if the
sign call returns no signature, return the placeholder; otherwise return the
base64url-encoded signature bytes. -/
def generateRealSignature (env : PlatformEnv) : List Char :=
  if env.hasExistingKey ∨ env.keyGenSucceeds then
    match env.signOutput with
    | some signature => base64UrlEncode signature
    | none => fallbackSignature env.now
  else fallbackSignature env.now

/-- Embedding of `generateAuthenticatorData`: SHA-256 of the relying-party ID
(the hash itself is a platform primitive, passed as `sha256`), one flag byte
(bit 0 for user-present, bit 2 for user-verified), and the sign counter as
four big-endian bytes. -/
def generateAuthenticatorData (sha256 : List Nat → List Nat) (rpId : String)
    (signCount : Nat) (userPresent userVerified : Bool) : List Nat :=
  let rpIdHash := sha256 (utf8EncodeString rpId)
  let flags : Nat :=
    (if userPresent then 1 else 0) ||| (if userVerified then 4 else 0)
  let signCountBytes : List Nat :=
    [signCount >>> 24 &&& 255, signCount >>> 16 &&& 255,
     signCount >>> 8 &&& 255, signCount &&& 255]
  rpIdHash ++ flags :: signCountBytes

/-- Result of an `authenticate` call, with the observable effects needed by
the claims: the resolved success flag and error code, whether the platform
prompt was invoked, whether a session token was stored, and the assertion
artifacts (signature, authenticator data, embedded sign counter). -/
structure AuthResult where
  success : Bool
  errorCode : Option String
  promptShown : Bool
  sessionIssued : Bool
  signature : Option (List Char)
  authenticatorData : Option (List Nat)
  signCountEmbedded : Option Nat
deriving DecidableEq, Repr

/-- Embedding of the plugin's `authenticate`: lockout gate before the prompt;
on prompt success, reset the failure counter, resolve the credential
identifier (a stored one when supplied and non-empty, else the fresh
UUID-based one), read-and-increment its sign counter, build the authenticator
data, produce the signature, store a session and resolve success; on prompt
failure, record a failed attempt and resolve the mapped error code. -/
def authenticate (sha256 : List Nat → List Nat)
    (maxAttempts lockoutDuration : Nat) (rpId : String)
    (storedCredentialId : Option String) (st : PluginState)
    (env : PlatformEnv) : AuthResult × PluginState :=
  match isLockedOut st.lockout env.now with
  | (true, lk) =>
      ({ success := false, errorCode := some "lockedOut", promptShown := false,
         sessionIssued := false, signature := none, authenticatorData := none,
         signCountEmbedded := none }, { st with lockout := lk })
  | (false, lk) =>
      match env.promptOutcome with
      | .succeeded =>
          let credentialId :=
            match storedCredentialId with
            | some cid => if cid = "" then env.freshCredentialId else cid
            | none => env.freshCredentialId
          let r := getAndIncrementSignCount st.signCounts credentialId
          let authData := generateAuthenticatorData sha256 rpId r.1 true true
          let signature := generateRealSignature env
          ({ success := true, errorCode := none, promptShown := true,
             sessionIssued := true, signature := some signature,
             authenticatorData := some authData, signCountEmbedded := some r.1 },
           { lockout := resetFailedAttempts, signCounts := r.2 })
      | .failed code =>
          ({ success := false, errorCode := some (mapAuthErrorCode code),
             promptShown := true, sessionIssued := false, signature := none,
             authenticatorData := none, signCountEmbedded := none },
           { st with
             lockout := handleFailedAttempt maxAttempts lockoutDuration lk env.now })

/-- Result of a `register` call: resolved flags, the authenticator data placed
inside the attestation object, the exported public key included in the
response when available, and the embedded sign counter. -/
structure RegisterResult where
  success : Bool
  errorCode : Option String
  promptShown : Bool
  sessionIssued : Bool
  attestationAuthData : Option (List Nat)
  publicKey : Option (List Nat)
  signCountEmbedded : Option Nat
deriving DecidableEq, Repr

/-- Embedding of the plugin's `register`: lockout gate before the prompt; on
prompt success, reset the failure counter, mint a fresh credential identifier,
read-and-increment its sign counter, build the authenticator data passed to
`generateAttestationObject`, generate a key pair and export its public key
into the response, store a session and resolve success; on prompt failure,
record a failed attempt and resolve the mapped error code. -/
def register (sha256 : List Nat → List Nat)
    (maxAttempts lockoutDuration : Nat) (rpId : String) (st : PluginState)
    (env : PlatformEnv) : RegisterResult × PluginState :=
  match isLockedOut st.lockout env.now with
  | (true, lk) =>
      ({ success := false, errorCode := some "lockedOut", promptShown := false,
         sessionIssued := false, attestationAuthData := none,
         publicKey := none, signCountEmbedded := none },
       { st with lockout := lk })
  | (false, lk) =>
      match env.promptOutcome with
      | .succeeded =>
          let credentialId := env.freshCredentialId
          let r := getAndIncrementSignCount st.signCounts credentialId
          let authData := generateAuthenticatorData sha256 rpId r.1 true true
          ({ success := true, errorCode := none, promptShown := true,
             sessionIssued := true, attestationAuthData := some authData,
             publicKey := env.publicKeyData, signCountEmbedded := some r.1 },
           { lockout := resetFailedAttempts, signCounts := r.2 })
      | .failed code =>
          ({ success := false, errorCode := some (mapAuthErrorCode code),
             promptShown := true, sessionIssued := false,
             attestationAuthData := none, publicKey := none,
             signCountEmbedded := none },
           { st with
             lockout := handleFailedAttempt maxAttempts lockoutDuration lk env.now })

/-! ## TypeScript core: session state (`BiometricAuthCore.ts`) -/

/-- Session-relevant state of `BiometricAuthCore`: the `isAuthenticated` flag,
the `lastAuthTime` timestamp (ms), and whether an expiry timer is pending. -/
structure CoreState where
  isAuthenticatedFlag : Bool
  lastAuthTime : Option Int
  sessionTimeoutActive : Bool
deriving DecidableEq, Repr

/-- Embedding of `logout`: clear the pending expiry timer and reset the
session fields. -/
def logout (_st : CoreState) : CoreState :=
  { isAuthenticatedFlag := false, lastAuthTime := none,
    sessionTimeoutActive := false }

/-- Embedding of the `isAuthenticated` method.  Returns the boolean result,
the state after the call, and whether `logout()` was invoked as a side
effect.  The JavaScript truthiness test `!this.state.lastAuthTime` treats
both an absent and a zero timestamp as missing. -/
def coreIsAuthenticated (sessionDuration : Nat) (st : CoreState) (now : Int) :
    Bool × CoreState × Bool :=
  match st.lastAuthTime with
  | none => (false, st, false)
  | some last =>
      if st.isAuthenticatedFlag = false ∨ last = 0 then (false, st, false)
      else if 0 < sessionDuration ∧ (sessionDuration : Int) * 1000 < now - last then
        (false, logout st, true)
      else (true, st, false)

/-! ## TypeScript utils: `toArrayBuffer` and the challenge fallback -/

/-- Possible JavaScript inputs to `toArrayBuffer`. -/
inductive BufferSource where
  | arrayBuffer (bytes : List Nat)
  | uint8Array (bytes : List Nat)
  | str (s : List Char)
  | undef
deriving DecidableEq, Repr

/-- Embedding of `toArrayBuffer` (`src/utils/encoding.ts`): falsy inputs
(`undefined`, the empty string) yield `undefined`; an `ArrayBuffer` is
returned as is; a `Uint8Array` is copied; a non-empty string is decoded by
trying base64url, then standard base64, then falling back to its UTF-8
bytes. -/
def toArrayBuffer : BufferSource → Option (List Nat)
  | .undef => none
  | .str [] => none
  | .arrayBuffer bytes => some bytes
  | .uint8Array bytes => some bytes
  | .str (c :: cs) =>
      some (match base64URLToArrayBuffer (c :: cs) with
        | some b => b
        | none =>
            match base64ToArrayBuffer (c :: cs) with
            | some b => b
            | none => utf8EncodeChars (c :: cs))

/-- Embedding of the challenge fallback in `mergeCreateOptions` /
`mergeGetOptions`: `toArrayBuffer(userOptions?.challenge) ||
generateChallenge()`.  A returned `ArrayBuffer` object is always truthy, even
when empty, so only an `undefined` result selects the fresh challenge. -/
def mergeChallenge (userChallenge : BufferSource) (fresh : List Nat) :
    List Nat :=
  match toArrayBuffer userChallenge with
  | some b => b
  | none => fresh

/-! ## Codec lemmas -/

/-- Forward url translation applied to one character: `+`→`-` then `/`→`_`. -/
def urlF (c : Char) : Char := rep '/' '_' (rep '+' '-' c)

/-- Backward url translation applied to one character: `-`→`+` then `_`→`/`. -/
def urlB (c : Char) : Char := rep '_' '/' (rep '-' '+' c)

theorem decChar_tblFin : ∀ v : Fin 64, decChar (tbl v.val) = some v.val := by
  decide

theorem tblFin_ne_pad : ∀ v : Fin 64, tbl v.val ≠ '=' := by
  decide

theorem urlB_urlF_tblFin : ∀ v : Fin 64, urlB (urlF (tbl v.val)) = tbl v.val := by
  decide

theorem urlF_tblFin_ne :
    ∀ v : Fin 64, urlF (tbl v.val) ≠ '=' ∧ urlF (tbl v.val) ≠ '+' ∧
      urlF (tbl v.val) ≠ '/' := by
  decide

theorem decChar_tbl (v : Nat) (h : v < 64) : decChar (tbl v) = some v :=
  decChar_tblFin ⟨v, h⟩

theorem urlB_urlF_tbl (v : Nat) (h : v < 64) :
    urlB (urlF (tbl v)) = tbl v :=
  urlB_urlF_tblFin ⟨v, h⟩

theorem tbl_ne_pad (v : Nat) (h : v < 64) : tbl v ≠ '=' :=
  tblFin_ne_pad ⟨v, h⟩

theorem atobModel_encodeB64 :
    ∀ b : List Nat, (∀ x ∈ b, x < 256) → atobModel (encodeB64 b) = some b
  | [], _ => rfl
  | [a], h => by
      have ha : a < 256 := h a (by simp)
      simp only [encodeB64, atobModel, decChar_tbl (a / 4) (by omega),
        decChar_tbl (a % 4 * 16) (by omega)]
      simp only [if_true, and_self, Option.some.injEq, List.cons.injEq,
        and_true]
      omega
  | [a, x], h => by
      have ha : a < 256 := h a (by simp)
      have hx : x < 256 := h x (by simp)
      simp only [encodeB64, atobModel, decChar_tbl (a / 4) (by omega),
        decChar_tbl (a % 4 * 16 + x / 16) (by omega),
        decChar_tbl (x % 16 * 4) (by omega),
        if_neg (tbl_ne_pad (x % 16 * 4) (by omega))]
      simp only [if_true, Option.some.injEq, List.cons.injEq, and_true]
      constructor <;> omega
  | a :: x :: d :: rest, h => by
      have ha : a < 256 := h a (by simp)
      have hx : x < 256 := h x (by simp)
      have hd : d < 256 := h d (by simp)
      have ih : atobModel (encodeB64 rest) = some rest :=
        atobModel_encodeB64 rest (fun y hy => h y (by simp [hy]))
      simp only [encodeB64, atobModel, decChar_tbl (a / 4) (by omega),
        decChar_tbl (a % 4 * 16 + x / 16) (by omega),
        decChar_tbl (x % 16 * 4 + d / 64) (by omega),
        decChar_tbl (d % 64) (by omega),
        if_neg (tbl_ne_pad (x % 16 * 4 + d / 64) (by omega)),
        if_neg (tbl_ne_pad (d % 64) (by omega)), ih]
      simp only [Option.some.injEq, List.cons.injEq, and_true]
      refine ⟨by omega, by omega, by omega⟩

theorem encodeB64_eq_core_pad :
    ∀ b : List Nat,
      encodeB64 b =
        encodeB64Core b ++ List.replicate ((3 - b.length % 3) % 3) '='
  | [] => rfl
  | [_] => rfl
  | [_, _] => rfl
  | a :: x :: d :: rest => by
      have ih := encodeB64_eq_core_pad rest
      simp only [encodeB64, encodeB64Core, List.length_cons, List.cons_append]
      rw [show (rest.length + 1 + 1 + 1) % 3 = rest.length % 3 by omega, ih]

theorem pad_of_core :
    ∀ b : List Nat,
      (4 - (encodeB64Core b).length % 4) % 4 = (3 - b.length % 3) % 3
  | [] => rfl
  | [_] => rfl
  | [_, _] => rfl
  | _ :: _ :: _ :: rest => by
      have ih := pad_of_core rest
      simp only [encodeB64Core, List.length_cons]
      omega

theorem encodeB64Core_mem :
    ∀ b : List Nat, (∀ x ∈ b, x < 256) →
      ∀ c ∈ encodeB64Core b, ∃ v, v < 64 ∧ c = tbl v
  | [], _ => by simp [encodeB64Core]
  | [a], h => by
      have ha : a < 256 := h a (by simp)
      intro c hc
      simp only [encodeB64Core, List.mem_cons, List.not_mem_nil, or_false]
        at hc
      rcases hc with rfl | rfl
      · exact ⟨a / 4, by omega, rfl⟩
      · exact ⟨a % 4 * 16, by omega, rfl⟩
  | [a, x], h => by
      have ha : a < 256 := h a (by simp)
      have hx : x < 256 := h x (by simp)
      intro c hc
      simp only [encodeB64Core, List.mem_cons, List.not_mem_nil, or_false]
        at hc
      rcases hc with rfl | rfl | rfl
      · exact ⟨a / 4, by omega, rfl⟩
      · exact ⟨a % 4 * 16 + x / 16, by omega, rfl⟩
      · exact ⟨x % 16 * 4, by omega, rfl⟩
  | a :: x :: d :: rest, h => by
      have ha : a < 256 := h a (by simp)
      have hx : x < 256 := h x (by simp)
      have hd : d < 256 := h d (by simp)
      have ih := encodeB64Core_mem rest (fun y hy => h y (by simp [hy]))
      intro c hc
      simp only [encodeB64Core, List.mem_cons] at hc
      rcases hc with rfl | rfl | rfl | rfl | hc
      · exact ⟨a / 4, by omega, rfl⟩
      · exact ⟨a % 4 * 16 + x / 16, by omega, rfl⟩
      · exact ⟨x % 16 * 4 + d / 64, by omega, rfl⟩
      · exact ⟨d % 64, by omega, rfl⟩
      · exact ih c hc

theorem map_id_of_mem {α : Type} (f : α → α) :
    ∀ l : List α, (∀ c ∈ l, f c = c) → l.map f = l
  | [], _ => rfl
  | c :: cs, h => by
      have hc := h c (by simp)
      have ih := map_id_of_mem f cs (fun y hy => h y (by simp [hy]))
      simp [hc, ih]

theorem arrayBufferToBase64URL_eq_map (b : List Nat)
    (hb : ∀ x ∈ b, x < 256) :
    arrayBufferToBase64URL b = (encodeB64Core b).map urlF := by
  unfold arrayBufferToBase64URL replaceChar removeChar
  rw [encodeB64_eq_core_pad b]
  simp only [List.map_append, List.map_map, List.filter_append,
    List.map_replicate]
  have hmap : ∀ c : Char,
      rep '/' '_' (rep '+' '-' c) = urlF c := fun _ => rfl
  have hpadmap : rep '/' '_' (rep '+' '-' '=') = '=' := rfl
  rw [hpadmap]
  have h1 :
      List.filter (fun c => c != '=')
        (List.map (rep '/' '_' ∘ rep '+' '-') (encodeB64Core b)) =
      List.map (rep '/' '_' ∘ rep '+' '-') (encodeB64Core b) := by
    rw [List.filter_eq_self]
    intro c hc
    rcases List.mem_map.mp hc with ⟨c0, hc0, rfl⟩
    rcases encodeB64Core_mem b hb c0 hc0 with ⟨v, hv, rfl⟩
    have := (urlF_tblFin_ne ⟨v, hv⟩).1
    simpa [bne_iff_ne, urlF] using this
  have h2 :
      List.filter (fun c => c != '=')
        (List.replicate ((3 - b.length % 3) % 3) '=') = [] := by
    rw [List.filter_eq_nil_iff]
    intro c hc
    rw [List.eq_of_mem_replicate hc]
    simp
  rw [h1, h2, List.append_nil]
  rfl

theorem base64URL_roundtrip (b : List Nat) (hb : ∀ x ∈ b, x < 256) :
    base64URLToArrayBuffer (arrayBufferToBase64URL b) = some b := by
  rw [arrayBufferToBase64URL_eq_map b hb]
  have hback :
      replaceChar '_' '/' (replaceChar '-' '+' ((encodeB64Core b).map urlF)) =
      encodeB64Core b := by
    unfold replaceChar
    simp only [List.map_map]
    apply map_id_of_mem
    intro c hc
    rcases encodeB64Core_mem b hb c hc with ⟨v, hv, rfl⟩
    simp only [Function.comp]
    exact urlB_urlF_tbl v hv
  unfold base64URLToArrayBuffer
  rw [hback]
  show atobModel (encodeB64Core b ++
    List.replicate ((4 - (encodeB64Core b).length % 4) % 4) '=') = some b
  rw [pad_of_core b, ← encodeB64_eq_core_pad b]
  exact atobModel_encodeB64 b hb

/-! ## Shared concrete instantiations -/

/-- Stand-in hash oracle for concrete evaluations: a fixed 32-byte digest. -/
def sha256Zero : List Nat → List Nat := fun _ => List.replicate 32 0

/-- Fresh plugin state: no failed attempts, no lockout, all counters zero. -/
def pluginState0 : PluginState :=
  { lockout := { failedAttempts := 0, lockoutEndTime := none },
    signCounts := fun _ => 0 }

/-- Concrete platform oracle with a working keychain, at time `t`, with prompt
outcome `o` and fresh credential identifier `cid`. -/
def envAt (t : Nat) (o : PromptOutcome) (cid : String) : PlatformEnv :=
  { now := t, promptOutcome := o, freshCredentialId := cid,
    hasExistingKey := true, keyGenSucceeds := true, signOutput := some [1, 2, 3],
    publicKeyData := some [9, 9] }

/-! ## Authenticator-data lemmas -/

theorem genAuthData_length (sha256 : List Nat → List Nat) (rpId : String)
    (sc : Nat) (up uv : Bool)
    (h32 : (sha256 (utf8EncodeString rpId)).length = 32) :
    (generateAuthenticatorData sha256 rpId sc up uv).length = 37 := by
  simp [generateAuthenticatorData, h32]

theorem genAuthData_take (sha256 : List Nat → List Nat) (rpId : String)
    (sc : Nat) (up uv : Bool)
    (h32 : (sha256 (utf8EncodeString rpId)).length = 32) :
    (generateAuthenticatorData sha256 rpId sc up uv).take 32 =
      sha256 (utf8EncodeString rpId) := by
  unfold generateAuthenticatorData
  rw [← h32]
  exact List.take_left _ _

theorem genAuthData_flagByte (sha256 : List Nat → List Nat) (rpId : String)
    (sc : Nat) (up uv : Bool)
    (h32 : (sha256 (utf8EncodeString rpId)).length = 32) :
    (generateAuthenticatorData sha256 rpId sc up uv).getD 32 0 =
      (if up then 1 else 0) ||| (if uv then 4 else 0) := by
  unfold generateAuthenticatorData
  rw [List.getD_append_right _ _ _ _ (le_of_eq h32), h32]
  simp

theorem genAuthData_drop (sha256 : List Nat → List Nat) (rpId : String)
    (sc : Nat) (up uv : Bool)
    (h32 : (sha256 (utf8EncodeString rpId)).length = 32) :
    (generateAuthenticatorData sha256 rpId sc up uv).drop 33 =
      [sc >>> 24 &&& 255, sc >>> 16 &&& 255, sc >>> 8 &&& 255, sc &&& 255] := by
  unfold generateAuthenticatorData
  rw [List.append_cons]
  have hlen : (sha256 (utf8EncodeString rpId) ++
      [(if up then 1 else 0) ||| (if uv then 4 else 0)]).length = 33 := by
    simp [h32]
  rw [← hlen]
  exact List.drop_left _ _

theorem signByte_eq_mod (sc k : Nat) :
    sc >>> k &&& 255 = sc / 2 ^ k % 256 := by
  rw [Nat.shiftRight_eq_div_pow]
  exact Nat.and_pow_two_sub_one_eq_mod _ 8

/-! ## Sign-counter lemmas -/

theorem iterateUses_spec (c : String) :
    ∀ (n : Nat) (s : String → Nat),
      (iterateUses s c n).1 =
        (List.range n).map (fun i => s (signCountKey c) + i)
      ∧ ∀ k, (iterateUses s c n).2 k =
          if k = signCountKey c then s k + n else s k
  | 0, s => by simp [iterateUses]
  | n + 1, s => by
      have ih := iterateUses_spec c n
        (fun k => if k = signCountKey c then s (signCountKey c) + 1 else s k)
      simp only [iterateUses, getAndIncrementSignCount]
      constructor
      · rw [ih.1, List.range_succ_eq_map, List.map_cons, List.map_map]
        simp only [Nat.add_zero, if_pos rfl]
        refine congrArg (fun l => s (signCountKey c) :: l) ?goal
        apply List.map_congr_left
        intro i _
        simp [Function.comp]
        omega
      · intro k
        rw [ih.2 k]
        by_cases hk : k = signCountKey c <;> simp [hk] <;> omega

/-! ## Claims -/

/-- C3: the counter-store increment returns the pre-increment value, stores
the successor (so the stored counter never decreases), and successive uses
for the same credential observe the values `s₀, s₀+1, …`, which are strictly
increasing, so no two uses observe the same value. -/
theorem C3_sign_counter (s : String → Nat) (c : String) (n : Nat) :
    (getAndIncrementSignCount s c).1 = s (signCountKey c)
  ∧ (getAndIncrementSignCount s c).2 (signCountKey c) = s (signCountKey c) + 1
  ∧ (∀ k, s k ≤ (getAndIncrementSignCount s c).2 k)
  ∧ (iterateUses s c n).1 =
      (List.range n).map (fun i => s (signCountKey c) + i)
  ∧ List.Pairwise (· < ·) (iterateUses s c n).1 := by
  refine ⟨rfl, by simp [getAndIncrementSignCount], ?mono, (iterateUses_spec c n s).1, ?pw⟩
  · intro k
    by_cases hk : k = signCountKey c <;> simp [getAndIncrementSignCount, hk]
  · rw [(iterateUses_spec c n s).1, List.pairwise_map]
    exact (List.pairwise_lt_range n).imp (fun hab => by omega)

/-- C4: the lockout accountant with `maxAttempts = 3`: a failure below the
threshold increments the counter, the third failure moves to
LockedOut(now + lockoutDuration) and resets the counter to 0; while the
current time is before the lockout end, `authenticate` and `register` resolve
a `lockedOut` error without showing the platform prompt; once the duration
has elapsed the prompt is shown again, and a successful prompt resets the
failure counter to 0. -/
theorem C4_lockout_machine (d now : Nat) (st : LockoutState)
    (sha256 : List Nat → List Nat) (rpId : String)
    (storedCredentialId : Option String) (counts : String → Nat)
    (env env2 : PlatformEnv) :
    (st.failedAttempts + 1 < 3 →
      handleFailedAttempt 3 d st now =
        { st with failedAttempts := st.failedAttempts + 1 })
  ∧ (3 ≤ st.failedAttempts + 1 →
      handleFailedAttempt 3 d st now =
        { failedAttempts := 0, lockoutEndTime := some (now + d) })
  ∧ (env.now < now + d →
      (authenticate sha256 3 d rpId storedCredentialId
        ⟨⟨0, some (now + d)⟩, counts⟩ env).1 =
        { success := false, errorCode := some "lockedOut",
          promptShown := false, sessionIssued := false, signature := none,
          authenticatorData := none, signCountEmbedded := none })
  ∧ (env.now < now + d →
      ((register sha256 3 d rpId ⟨⟨0, some (now + d)⟩, counts⟩ env).1).promptShown
          = false
      ∧ ((register sha256 3 d rpId ⟨⟨0, some (now + d)⟩, counts⟩ env).1).errorCode
          = some "lockedOut")
  ∧ (now + d ≤ env2.now →
      ((authenticate sha256 3 d rpId storedCredentialId
        ⟨⟨0, some (now + d)⟩, counts⟩ env2).1).promptShown = true)
  ∧ (now + d ≤ env2.now → env2.promptOutcome = PromptOutcome.succeeded →
      ((authenticate sha256 3 d rpId storedCredentialId
        ⟨⟨0, some (now + d)⟩, counts⟩ env2).2).lockout =
        { failedAttempts := 0, lockoutEndTime := none }) := by
  refine ⟨?below, ?lock, ?gateA, ?gateR, ?allow, ?reset⟩
  · intro h
    simp [handleFailedAttempt]
    omega
  · intro h
    simp [handleFailedAttempt]
    omega
  · intro h
    simp [authenticate, isLockedOut, h]
  · intro h
    constructor <;> simp [register, isLockedOut, h]
  · intro h
    have hn : ¬ env2.now < now + d := by omega
    cases ho : env2.promptOutcome <;>
      simp [authenticate, isLockedOut, hn, ho]
  · intro h hs
    have hn : ¬ env2.now < now + d := by omega
    simp [authenticate, isLockedOut, hn, hs, resetFailedAttempts]

/-- Witness for C4 at concrete inputs. -/
theorem C4_lockout_machine_witness :
    (handleFailedAttempt 3 30 ⟨1, none⟩ 100 = ⟨2, none⟩)
  ∧ (handleFailedAttempt 3 30 ⟨2, none⟩ 100 = ⟨0, some 130⟩)
  ∧ ((authenticate sha256Zero 3 30 "rp" none
        ⟨⟨0, some 130⟩, fun _ => 0⟩ (envAt 110 (.failed laUserCancel) "c")).1 =
      { success := false, errorCode := some "lockedOut", promptShown := false,
        sessionIssued := false, signature := none, authenticatorData := none,
        signCountEmbedded := none })
  ∧ (((register sha256Zero 3 30 "rp"
        ⟨⟨0, some 130⟩, fun _ => 0⟩ (envAt 110 (.failed laUserCancel) "c")).1).promptShown
        = false
      ∧ ((register sha256Zero 3 30 "rp"
        ⟨⟨0, some 130⟩, fun _ => 0⟩ (envAt 110 (.failed laUserCancel) "c")).1).errorCode
        = some "lockedOut")
  ∧ (((authenticate sha256Zero 3 30 "rp" none
        ⟨⟨0, some 130⟩, fun _ => 0⟩ (envAt 200 .succeeded "c")).1).promptShown = true)
  ∧ (((authenticate sha256Zero 3 30 "rp" none
        ⟨⟨0, some 130⟩, fun _ => 0⟩ (envAt 200 .succeeded "c")).2).lockout =
      { failedAttempts := 0, lockoutEndTime := none }) := by
  have h1 := C4_lockout_machine 30 100 ⟨1, none⟩ sha256Zero "rp" none
    (fun _ => 0) (envAt 110 (.failed laUserCancel) "c") (envAt 200 .succeeded "c")
  have h2 := C4_lockout_machine 30 100 ⟨2, none⟩ sha256Zero "rp" none
    (fun _ => 0) (envAt 110 (.failed laUserCancel) "c") (envAt 200 .succeeded "c")
  exact ⟨h1.1 (by decide), h2.2.1 (by decide), h1.2.2.1 (by decide),
    h1.2.2.2.1 (by decide), h1.2.2.2.2.1 (by decide),
    h1.2.2.2.2.2 (by decide) rfl⟩

/-- C5: for every generated assertion authenticator-data value, the total
length is 37 bytes, bytes 0..31 are the SHA-256 of the relying-party ID,
byte 32 has bit 0 set iff user-present and bit 2 set iff user-verified, and
bytes 33..36 hold the sign counter in big-endian order. -/
theorem C5_authenticator_data (sha256 : List Nat → List Nat) (rpId : String)
    (sc : Nat) (up uv : Bool)
    (h32 : (sha256 (utf8EncodeString rpId)).length = 32)
    (hc : sc < 2 ^ 32) :
    (generateAuthenticatorData sha256 rpId sc up uv).length = 37
  ∧ (generateAuthenticatorData sha256 rpId sc up uv).take 32 =
      sha256 (utf8EncodeString rpId)
  ∧ ((generateAuthenticatorData sha256 rpId sc up uv).getD 32 0).testBit 0 = up
  ∧ ((generateAuthenticatorData sha256 rpId sc up uv).getD 32 0).testBit 2 = uv
  ∧ (generateAuthenticatorData sha256 rpId sc up uv).drop 33 =
      [sc / 2 ^ 24 % 256, sc / 2 ^ 16 % 256, sc / 2 ^ 8 % 256, sc % 256]
  ∧ List.foldl (fun acc byte => acc * 256 + byte) 0
      ((generateAuthenticatorData sha256 rpId sc up uv).drop 33) = sc := by
  have hdrop : (generateAuthenticatorData sha256 rpId sc up uv).drop 33 =
      [sc / 2 ^ 24 % 256, sc / 2 ^ 16 % 256, sc / 2 ^ 8 % 256, sc % 256] := by
    rw [genAuthData_drop sha256 rpId sc up uv h32, signByte_eq_mod,
      signByte_eq_mod, signByte_eq_mod]
    have h0 : sc &&& 255 = sc % 256 := by
      have := signByte_eq_mod sc 0
      simpa using this
    rw [h0]
  refine ⟨genAuthData_length sha256 rpId sc up uv h32,
    genAuthData_take sha256 rpId sc up uv h32, ?bit0, ?bit2, hdrop, ?fold⟩
  · rw [genAuthData_flagByte sha256 rpId sc up uv h32]
    cases up <;> cases uv <;> decide
  · rw [genAuthData_flagByte sha256 rpId sc up uv h32]
    cases up <;> cases uv <;> decide
  · rw [hdrop]
    simp only [List.foldl]
    have h24 : (2 : Nat) ^ 24 = 16777216 := by norm_num
    have h16 : (2 : Nat) ^ 16 = 65536 := by norm_num
    have h8 : (2 : Nat) ^ 8 = 256 := by norm_num
    have h32p : (2 : Nat) ^ 32 = 4294967296 := by norm_num
    rw [h24, h16, h8] at *
    omega

/-- Witness for C5 at concrete inputs. -/
theorem C5_authenticator_data_witness :
    ((sha256Zero (utf8EncodeString "example.com")).length = 32 ∧ 7 < 2 ^ 32)
  ∧ ((generateAuthenticatorData sha256Zero "example.com" 7 true true).length = 37
  ∧ (generateAuthenticatorData sha256Zero "example.com" 7 true true).take 32 =
      sha256Zero (utf8EncodeString "example.com")
  ∧ ((generateAuthenticatorData sha256Zero "example.com" 7 true true).getD 32 0).testBit 0 = true
  ∧ ((generateAuthenticatorData sha256Zero "example.com" 7 true true).getD 32 0).testBit 2 = true
  ∧ (generateAuthenticatorData sha256Zero "example.com" 7 true true).drop 33 =
      [7 / 2 ^ 24 % 256, 7 / 2 ^ 16 % 256, 7 / 2 ^ 8 % 256, 7 % 256]
  ∧ List.foldl (fun acc byte => acc * 256 + byte) 0
      ((generateAuthenticatorData sha256Zero "example.com" 7 true true).drop 33) = 7) :=
  ⟨⟨by decide, by norm_num⟩,
    C5_authenticator_data sha256Zero "example.com" 7 true true (by decide)
      (by norm_num)⟩

/-- Platform oracle in which the signing primitive is unavailable: no
existing keychain key and key generation fails. -/
def envNoKey : PlatformEnv :=
  { now := 1234, promptOutcome := .succeeded, freshCredentialId := "mobile_x",
    hasExistingKey := false, keyGenSucceeds := false, signOutput := none,
    publicKeyData := none }

/-- Platform oracle in which a key is available but the sign call returns no
signature. -/
def envSignFails : PlatformEnv :=
  { now := 1234, promptOutcome := .succeeded, freshCredentialId := "mobile_x",
    hasExistingKey := true, keyGenSucceeds := true, signOutput := none,
    publicKeyData := none }

/-- C1 (defect evidence): when the platform signing primitive is unavailable
— the key can be neither obtained nor generated, or the sign call returns no
signature — `generateRealSignature` returns the non-cryptographic placeholder
`base64url("fallback_sig_<timestamp>")`, and `authenticate` still resolves a
success result carrying that placeholder in its signature field instead of
failing with a distinguishable error. -/
theorem C1_placeholder_signature :
    generateRealSignature envNoKey =
      base64UrlEncode (utf8EncodeString "fallback_sig_1234")
  ∧ generateRealSignature envSignFails =
      base64UrlEncode (utf8EncodeString "fallback_sig_1234")
  ∧ ((authenticate sha256Zero 3 30 "app.example" none pluginState0
        envNoKey).1).success = true
  ∧ ((authenticate sha256Zero 3 30 "app.example" none pluginState0
        envNoKey).1).errorCode = none
  ∧ ((authenticate sha256Zero 3 30 "app.example" none pluginState0
        envNoKey).1).signature =
      some (base64UrlEncode (utf8EncodeString "fallback_sig_1234")) := by
  decide

/-- Platform oracle for a prompt the user cancelled. -/
def envCancel : PlatformEnv :=
  { now := 5000, promptOutcome := .failed laUserCancel,
    freshCredentialId := "mobile_y", hasExistingKey := true,
    keyGenSucceeds := true, signOutput := some [1], publicKeyData := none }

/-- Platform oracle for a prompt the system interrupted. -/
def envSysCancel : PlatformEnv :=
  { now := 5000, promptOutcome := .failed laSystemCancel,
    freshCredentialId := "mobile_y", hasExistingKey := true,
    keyGenSucceeds := true, signOutput := some [1], publicKeyData := none }

/-- C2 (defect evidence): a cancelled prompt does resolve with
`userCancelled`/`systemCancelled` and issues no session, but the failure
branch records a failed attempt unconditionally, so the cancellation
increments the lockout counter — and, at two prior failures with
`maxAttempts = 3`, a user cancellation alone completes the lockout. -/
theorem C2_cancellation_lockout :
    ((authenticate sha256Zero 3 30 "rp" none ⟨⟨2, none⟩, fun _ => 0⟩
        envCancel).1).errorCode = some "userCancelled"
  ∧ ((authenticate sha256Zero 3 30 "rp" none ⟨⟨2, none⟩, fun _ => 0⟩
        envCancel).1).success = false
  ∧ ((authenticate sha256Zero 3 30 "rp" none ⟨⟨2, none⟩, fun _ => 0⟩
        envCancel).1).sessionIssued = false
  ∧ ((authenticate sha256Zero 3 30 "rp" none ⟨⟨2, none⟩, fun _ => 0⟩
        envCancel).2).lockout =
      { failedAttempts := 0, lockoutEndTime := some 5030 }
  ∧ ((authenticate sha256Zero 3 30 "rp" none ⟨⟨0, none⟩, fun _ => 0⟩
        envCancel).2).lockout.failedAttempts = 1
  ∧ ((authenticate sha256Zero 3 30 "rp" none ⟨⟨0, none⟩, fun _ => 0⟩
        envSysCancel).1).errorCode = some "systemCancelled"
  ∧ ((authenticate sha256Zero 3 30 "rp" none ⟨⟨0, none⟩, fun _ => 0⟩
        envSysCancel).2).lockout.failedAttempts = 1
  ∧ ((register sha256Zero 3 30 "rp" ⟨⟨0, none⟩, fun _ => 0⟩
        envCancel).2).lockout.failedAttempts = 1 := by
  decide

/-- C6 counterexample: on a concrete successful registration the
authenticator data inside the attestation is exactly 37 bytes — nothing
follows the assertion-shaped prefix — and flag bit 6
(attested-credential-data-present) is clear, contradicting the claim that
registration output carries an attested-credential-data block with bit 6
set. -/
theorem C6_counterexample :
    ((register sha256Zero 3 30 "app.example" pluginState0
        (envAt 100 .succeeded "mobile_r")).1).success = true
  ∧ ((register sha256Zero 3 30 "app.example" pluginState0
        (envAt 100 .succeeded "mobile_r")).1).attestationAuthData ≠ none
  ∧ (((register sha256Zero 3 30 "app.example" pluginState0
        (envAt 100 .succeeded "mobile_r")).1).attestationAuthData.getD []).length
      = 37
  ∧ ((((register sha256Zero 3 30 "app.example" pluginState0
        (envAt 100 .succeeded "mobile_r")).1).attestationAuthData.getD
          []).getD 32 0).testBit 6 = false := by
  decide

/-- C6 amended: every successful registration returns the same 37-byte
assertion-shaped authenticator data (flag bit 6 clear, no
attested-credential-data block appended); the credential public key is
instead delivered separately in the response. -/
theorem C6_register_authdata (sha256 : List Nat → List Nat) (rpId : String)
    (maxAttempts lockoutDuration : Nat) (st : PluginState) (env : PlatformEnv)
    (h32 : (sha256 (utf8EncodeString rpId)).length = 32)
    (hs : env.promptOutcome = PromptOutcome.succeeded)
    (hlk : (isLockedOut st.lockout env.now).1 = false) :
    ((register sha256 maxAttempts lockoutDuration rpId st env).1).success = true
  ∧ ((register sha256 maxAttempts lockoutDuration rpId st env).1).attestationAuthData =
      some (generateAuthenticatorData sha256 rpId
        (st.signCounts (signCountKey env.freshCredentialId)) true true)
  ∧ (((register sha256 maxAttempts lockoutDuration rpId st
        env).1).attestationAuthData.getD []).length = 37
  ∧ ((((register sha256 maxAttempts lockoutDuration rpId st
        env).1).attestationAuthData.getD []).getD 32 0).testBit 6 = false
  ∧ ((register sha256 maxAttempts lockoutDuration rpId st env).1).publicKey =
      env.publicKeyData := by
  rcases hq : isLockedOut st.lockout env.now with ⟨flag, lk⟩
  have hflag : flag = false := by rw [hq] at hlk; exact hlk
  subst hflag
  have hauth : ((register sha256 maxAttempts lockoutDuration rpId st
      env).1).attestationAuthData =
      some (generateAuthenticatorData sha256 rpId
        (st.signCounts (signCountKey env.freshCredentialId)) true true) := by
    simp [register, hq, hs, getAndIncrementSignCount]
  refine ⟨by simp [register, hq, hs], hauth, ?len, ?bit,
    by simp [register, hq, hs]⟩
  · rw [hauth]
    simpa using genAuthData_length sha256 rpId _ true true h32
  · rw [hauth]
    simp only [Option.getD_some]
    rw [genAuthData_flagByte sha256 rpId _ true true h32]
    decide

/-- Witness for the amended C6 at concrete inputs. -/
theorem C6_register_authdata_witness :
    ((sha256Zero (utf8EncodeString "app.example")).length = 32
      ∧ (envAt 100 .succeeded "mobile_r").promptOutcome = PromptOutcome.succeeded
      ∧ (isLockedOut pluginState0.lockout (envAt 100 .succeeded "mobile_r").now).1
          = false)
  ∧ (((register sha256Zero 3 30 "app.example" pluginState0
        (envAt 100 .succeeded "mobile_r")).1).success = true
  ∧ ((register sha256Zero 3 30 "app.example" pluginState0
        (envAt 100 .succeeded "mobile_r")).1).attestationAuthData =
      some (generateAuthenticatorData sha256Zero "app.example"
        (pluginState0.signCounts
          (signCountKey (envAt 100 .succeeded "mobile_r").freshCredentialId))
        true true)
  ∧ (((register sha256Zero 3 30 "app.example" pluginState0
        (envAt 100 .succeeded "mobile_r")).1).attestationAuthData.getD
          []).length = 37
  ∧ ((((register sha256Zero 3 30 "app.example" pluginState0
        (envAt 100 .succeeded "mobile_r")).1).attestationAuthData.getD
          []).getD 32 0).testBit 6 = false
  ∧ ((register sha256Zero 3 30 "app.example" pluginState0
        (envAt 100 .succeeded "mobile_r")).1).publicKey =
      (envAt 100 .succeeded "mobile_r").publicKeyData) :=
  ⟨⟨by decide, rfl, by decide⟩,
    C6_register_authdata sha256Zero "app.example" 3 30 pluginState0
      (envAt 100 .succeeded "mobile_r") (by decide) rfl (by decide)⟩

/-- C7 counterexample: with `sessionDuration = 5` seconds, a session created
at time 1000 ms checked at 6000 ms — elapsed time is exactly the configured
duration — still reports authenticated, although `now − createdAt <
duration` does not hold; the claim's strict bound fails at the boundary. -/
theorem C7_counterexample :
    (coreIsAuthenticated 5 ⟨true, some 1000, true⟩ 6000).1 = true
  ∧ ¬ ((6000 : Int) - 1000 < (5 : Int) * 1000) := by
  decide

/-- C7 amended: `isAuthenticated` returns true iff the session flag is set,
a (nonzero) creation timestamp exists, and `now − createdAt ≤ duration`;
whenever it is called after strictly more than the duration has elapsed it
returns false and calls `logout()` as a side effect, so stale state never
observably persists; with duration 5 s, a check 4 s after creation is true
and a check 6 s after creation is false and triggers logout. -/
theorem C7_session_expiry (dur : Nat) (st : CoreState) (now : Int)
    (hd : 0 < dur) :
    ((coreIsAuthenticated dur st now).1 = true ↔
      st.isAuthenticatedFlag = true ∧
        ∃ last, st.lastAuthTime = some last ∧ last ≠ 0 ∧
          now - last ≤ (dur : Int) * 1000)
  ∧ (∀ last, st.lastAuthTime = some last → last ≠ 0 →
      st.isAuthenticatedFlag = true → (dur : Int) * 1000 < now - last →
        (coreIsAuthenticated dur st now).1 = false
      ∧ (coreIsAuthenticated dur st now).2.1 = logout st
      ∧ (coreIsAuthenticated dur st now).2.2 = true)
  ∧ (∀ t0 : Int, t0 ≠ 0 →
        (coreIsAuthenticated 5 ⟨true, some t0, true⟩ (t0 + 4000)).1 = true
      ∧ (coreIsAuthenticated 5 ⟨true, some t0, true⟩ (t0 + 6000)).1 = false
      ∧ (coreIsAuthenticated 5 ⟨true, some t0, true⟩ (t0 + 6000)).2.1 =
          logout ⟨true, some t0, true⟩
      ∧ (coreIsAuthenticated 5 ⟨true, some t0, true⟩ (t0 + 6000)).2.2 = true) := by
  refine ⟨?iff, ?expire, ?inst⟩
  · rcases hl : st.lastAuthTime with _ | last
    · simp [coreIsAuthenticated, hl]
    · simp only [coreIsAuthenticated, hl]
      by_cases hcond : st.isAuthenticatedFlag = false ∨ last = 0
      · rw [if_pos hcond]
        simp only [Bool.false_eq_true, false_iff, not_and]
        intro hflag h
        rcases h with ⟨l, hsome, hne, _⟩
        rcases Option.some.inj hsome with rfl
        rcases hcond with hc | hc
        · rw [hflag] at hc
          exact absurd hc (by simp)
        · exact hne hc
      · rw [if_neg hcond]
        push_neg at hcond
        have hflag : st.isAuthenticatedFlag = true := by
          revert hcond
          cases st.isAuthenticatedFlag <;> simp
        by_cases hexp : 0 < dur ∧ (dur : Int) * 1000 < now - last
        · rw [if_pos hexp]
          simp only [Bool.false_eq_true, false_iff, not_and]
          intro _ h
          rcases h with ⟨l, hsome, _, hle⟩
          rcases Option.some.inj hsome with rfl
          omega
        · rw [if_neg hexp]
          simp only [true_iff]
          refine ⟨hflag, last, rfl, hcond.2, ?le⟩
          have := fun h => hexp ⟨hd, h⟩
          omega
  · intro last hl h0 hflag hgt
    have hcond : ¬ (st.isAuthenticatedFlag = false ∨ last = 0) := by
      simp [hflag, h0]
    simp only [coreIsAuthenticated, hl]
    rw [if_neg hcond, if_pos ⟨hd, hgt⟩]
    exact ⟨rfl, rfl, rfl⟩
  · intro t0 h0
    have hcond : ¬ ((true : Bool) = false ∨ t0 = 0) := by simp [h0]
    have hno : ¬ (0 < 5 ∧ ((5 : Nat) : Int) * 1000 < t0 + 4000 - t0) := by
      omega
    have hyes : 0 < 5 ∧ ((5 : Nat) : Int) * 1000 < t0 + 6000 - t0 :=
      ⟨by norm_num, by omega⟩
    refine ⟨?a, ?b, ?c, ?d⟩ <;> simp only [coreIsAuthenticated]
    · rw [if_neg hcond, if_neg hno]
    · rw [if_neg hcond, if_pos hyes]
    · rw [if_neg hcond, if_pos hyes]
    · rw [if_neg hcond, if_pos hyes]

/-- Witness for the amended C7 at concrete inputs. -/
theorem C7_session_expiry_witness :
    0 < 5
  ∧ (((coreIsAuthenticated 5 ⟨true, some 1000, true⟩ 2000).1 = true ↔
      (⟨true, some 1000, true⟩ : CoreState).isAuthenticatedFlag = true ∧
        ∃ last, (⟨true, some 1000, true⟩ : CoreState).lastAuthTime = some last ∧
          last ≠ 0 ∧ (2000 : Int) - last ≤ ((5 : Nat) : Int) * 1000)
  ∧ (∀ last, (⟨true, some 1000, true⟩ : CoreState).lastAuthTime = some last →
      last ≠ 0 →
      (⟨true, some 1000, true⟩ : CoreState).isAuthenticatedFlag = true →
      ((5 : Nat) : Int) * 1000 < 2000 - last →
        (coreIsAuthenticated 5 ⟨true, some 1000, true⟩ 2000).1 = false
      ∧ (coreIsAuthenticated 5 ⟨true, some 1000, true⟩ 2000).2.1 =
          logout ⟨true, some 1000, true⟩
      ∧ (coreIsAuthenticated 5 ⟨true, some 1000, true⟩ 2000).2.2 = true)
  ∧ (∀ t0 : Int, t0 ≠ 0 →
        (coreIsAuthenticated 5 ⟨true, some t0, true⟩ (t0 + 4000)).1 = true
      ∧ (coreIsAuthenticated 5 ⟨true, some t0, true⟩ (t0 + 6000)).1 = false
      ∧ (coreIsAuthenticated 5 ⟨true, some t0, true⟩ (t0 + 6000)).2.1 =
          logout ⟨true, some t0, true⟩
      ∧ (coreIsAuthenticated 5 ⟨true, some t0, true⟩ (t0 + 6000)).2.2 = true)) :=
  ⟨by decide, C7_session_expiry 5 ⟨true, some 1000, true⟩ 2000 (by decide)⟩

/-- C8: base64url encoding emits no `=` padding and no `+` or `/` (those are
translated to `-` and `_`); decoding translates back, right-pads with `=` to
a multiple of four and performs standard base64 decoding; and decoding an
encoded buffer returns exactly the original bytes. -/
theorem C8_base64url (b : List Nat) (hb : ∀ x ∈ b, x < 256) (s : List Char) :
    (∀ c ∈ arrayBufferToBase64URL b, c ≠ '=' ∧ c ≠ '+' ∧ c ≠ '/')
  ∧ base64URLToArrayBuffer s =
      atobModel (replaceChar '_' '/' (replaceChar '-' '+' s) ++
        List.replicate
          ((4 - (replaceChar '_' '/' (replaceChar '-' '+' s)).length % 4) % 4)
          '=')
  ∧ base64URLToArrayBuffer (arrayBufferToBase64URL b) = some b := by
  refine ⟨?alphabet, rfl, base64URL_roundtrip b hb⟩
  intro c hc
  rw [arrayBufferToBase64URL_eq_map b hb] at hc
  rcases List.mem_map.mp hc with ⟨c0, hc0, rfl⟩
  rcases encodeB64Core_mem b hb c0 hc0 with ⟨v, hv, rfl⟩
  exact urlF_tblFin_ne ⟨v, hv⟩

/-- Witness for C8 at concrete inputs. -/
theorem C8_base64url_witness :
    (∀ x ∈ [0, 77, 255], x < 256)
  ∧ ((∀ c ∈ arrayBufferToBase64URL [0, 77, 255],
        c ≠ '=' ∧ c ≠ '+' ∧ c ≠ '/')
  ∧ base64URLToArrayBuffer ['Q', 'Q'] =
      atobModel (replaceChar '_' '/' (replaceChar '-' '+' ['Q', 'Q']) ++
        List.replicate
          ((4 - (replaceChar '_' '/'
            (replaceChar '-' '+' ['Q', 'Q'])).length % 4) % 4) '=')
  ∧ base64URLToArrayBuffer (arrayBufferToBase64URL [0, 77, 255]) =
      some [0, 77, 255]) :=
  ⟨by decide, C8_base64url [0, 77, 255] (by decide) ['Q', 'Q']⟩

/-- Injectivity of the sign-counter key: distinct credential identifiers use
distinct UserDefaults keys. -/
theorem signCountKey_inj {c1 c2 : String}
    (h : signCountKey c1 = signCountKey c2) : c1 = c2 := by
  have hd : "sign_count_".data ++ c1.data = "sign_count_".data ++ c2.data :=
    congrArg String.data h
  exact String.ext (List.append_cancel_left hd)

/-- C9: starting from a fresh store, a successful registration embeds sign
counter 0 in the attestation and leaves the store at 1 for the registered
credential; the following authenticate call (no stored credential supplied,
fresh identifier) produces assertion-path output embedding sign counter 0 —
the pre-increment value — and afterwards the store holds counter 1 for that
credential. -/
theorem C9_register_then_authenticate (sha256 : List Nat → List Nat)
    (c1 c2 : String) (envR envA : PlatformEnv) (h12 : c1 ≠ c2)
    (hR : envR.promptOutcome = PromptOutcome.succeeded)
    (hRc : envR.freshCredentialId = c1)
    (hA : envA.promptOutcome = PromptOutcome.succeeded)
    (hAc : envA.freshCredentialId = c2) :
    ((register sha256 3 30 "app.example" pluginState0 envR).1).success = true
  ∧ ((register sha256 3 30 "app.example" pluginState0 envR).1).signCountEmbedded
      = some 0
  ∧ ((register sha256 3 30 "app.example" pluginState0 envR).2).signCounts
      (signCountKey c1) = 1
  ∧ ((authenticate sha256 3 30 "app.example" none
        (register sha256 3 30 "app.example" pluginState0 envR).2 envA).1).success
      = true
  ∧ ((authenticate sha256 3 30 "app.example" none
        (register sha256 3 30 "app.example" pluginState0 envR).2
        envA).1).signCountEmbedded = some 0
  ∧ ((authenticate sha256 3 30 "app.example" none
        (register sha256 3 30 "app.example" pluginState0 envR).2
        envA).1).authenticatorData =
      some (generateAuthenticatorData sha256 "app.example" 0 true true)
  ∧ ((authenticate sha256 3 30 "app.example" none
        (register sha256 3 30 "app.example" pluginState0 envR).2
        envA).2).signCounts (signCountKey c2) = 1 := by
  have hkey : signCountKey c2 ≠ signCountKey c1 :=
    fun h => h12 (signCountKey_inj h).symm
  refine ⟨?r1, ?r2, ?r3, ?a1, ?a2, ?a3, ?a4⟩ <;>
    simp [register, authenticate, isLockedOut, pluginState0,
      resetFailedAttempts, getAndIncrementSignCount, hR, hA, hRc, hAc, hkey]

/-- Witness for C9 at concrete inputs. -/
theorem C9_register_then_authenticate_witness :
    (("mobile_a" : String) ≠ "mobile_b"
      ∧ (envAt 100 .succeeded "mobile_a").promptOutcome =
          PromptOutcome.succeeded
      ∧ (envAt 100 .succeeded "mobile_a").freshCredentialId = "mobile_a"
      ∧ (envAt 200 .succeeded "mobile_b").promptOutcome =
          PromptOutcome.succeeded
      ∧ (envAt 200 .succeeded "mobile_b").freshCredentialId = "mobile_b")
  ∧ (((register sha256Zero 3 30 "app.example" pluginState0
        (envAt 100 .succeeded "mobile_a")).1).success = true
  ∧ ((register sha256Zero 3 30 "app.example" pluginState0
        (envAt 100 .succeeded "mobile_a")).1).signCountEmbedded = some 0
  ∧ ((register sha256Zero 3 30 "app.example" pluginState0
        (envAt 100 .succeeded "mobile_a")).2).signCounts
      (signCountKey "mobile_a") = 1
  ∧ ((authenticate sha256Zero 3 30 "app.example" none
        (register sha256Zero 3 30 "app.example" pluginState0
          (envAt 100 .succeeded "mobile_a")).2
        (envAt 200 .succeeded "mobile_b")).1).success = true
  ∧ ((authenticate sha256Zero 3 30 "app.example" none
        (register sha256Zero 3 30 "app.example" pluginState0
          (envAt 100 .succeeded "mobile_a")).2
        (envAt 200 .succeeded "mobile_b")).1).signCountEmbedded = some 0
  ∧ ((authenticate sha256Zero 3 30 "app.example" none
        (register sha256Zero 3 30 "app.example" pluginState0
          (envAt 100 .succeeded "mobile_a")).2
        (envAt 200 .succeeded "mobile_b")).1).authenticatorData =
      some (generateAuthenticatorData sha256Zero "app.example" 0 true true)
  ∧ ((authenticate sha256Zero 3 30 "app.example" none
        (register sha256Zero 3 30 "app.example" pluginState0
          (envAt 100 .succeeded "mobile_a")).2
        (envAt 200 .succeeded "mobile_b")).2).signCounts
      (signCountKey "mobile_b") = 1) :=
  ⟨⟨by decide, rfl, rfl, rfl, rfl⟩,
    C9_register_then_authenticate sha256Zero "mobile_a" "mobile_b"
      (envAt 100 .succeeded "mobile_a") (envAt 200 .succeeded "mobile_b")
      (by decide) rfl rfl rfl rfl⟩

/-- C10: `toArrayBuffer` is total: `undefined` and the empty string map to
`undefined` (so an explicitly empty challenge string is treated as absent and
`mergeCreateOptions`/`mergeGetOptions` substitute the freshly generated
challenge, while an empty `ArrayBuffer` is kept as a zero-length buffer); an
`ArrayBuffer` is returned unchanged; a `Uint8Array` is copied; and every
non-empty string is converted by first attempting base64url decoding, then
standard base64 decoding, then falling back to UTF-8 encoding. -/
theorem C10_toArrayBuffer_total :
    toArrayBuffer BufferSource.undef = none
  ∧ toArrayBuffer (BufferSource.str []) = none
  ∧ (∀ bytes, toArrayBuffer (BufferSource.arrayBuffer bytes) = some bytes)
  ∧ (∀ bytes, toArrayBuffer (BufferSource.uint8Array bytes) = some bytes)
  ∧ (∀ c cs, toArrayBuffer (BufferSource.str (c :: cs)) =
      some (match base64URLToArrayBuffer (c :: cs) with
        | some b => b
        | none =>
            match base64ToArrayBuffer (c :: cs) with
            | some b => b
            | none => utf8EncodeChars (c :: cs)))
  ∧ (∀ d, toArrayBuffer d = none ∨ ∃ bytes, toArrayBuffer d = some bytes)
  ∧ (∀ fresh, mergeChallenge (BufferSource.str []) fresh = fresh)
  ∧ (∀ fresh, mergeChallenge (BufferSource.arrayBuffer []) fresh = []) := by
  refine ⟨rfl, rfl, fun bytes => rfl, fun bytes => rfl, fun c cs => rfl,
    ?total, fun fresh => rfl, fun fresh => rfl⟩
  intro d
  cases h : toArrayBuffer d with
  | none => exact Or.inl rfl
  | some bytes => exact Or.inr ⟨bytes, rfl⟩

end BiometricAuth
